import Mathlib

/-!
Verification development for a device-to-gateway internal client
(`internal_client` package): connection establishment with bounded retries,
handshake response-code interpretation, status/command exchange with a
bounded reconnect-and-resend loop, and the 4-byte big-endian length-prefixed
framing transport.

The Python source is shallowly embedded: stateful methods become functions
on an explicit `ClientState`, exceptions become `Except` results over an
error inductive mirroring the exception hierarchy of `exceptions.py`, and
the network is an explicit environment (lists/functions of outcomes).
-/

set_option autoImplicit false

namespace InternalClientSpec

/-! ## Error model (`exceptions.py` plus the Python builtins the code touches)

`ConnectErrKind` mirrors the subclasses of `ConnectExceptions`;
`CommErrKind` mirrors the subclasses of `CommunicationExceptions`.
`ErrInfo` records the argument the source attaches to a raised exception
(the "Expected n, got m Bytes" counts, the "Tried n times" annotation, ...).
-/

inductive ConnectErrKind where
  | alreadyConnected
  | moduleNotSupported
  | deviceNotSupported
  | higherPriorityAlreadyConnected
  deriving DecidableEq, Repr

inductive CommErrKind where
  | connectionRefused
  | communicationError
  | serverTookTooLong
  deriving DecidableEq, Repr

inductive ErrInfo where
  /-- exception raised without an argument -/
  | noInfo
  /-- "Couldn't establish connection to server. Tried n times." -/
  | triedTimes (n : Nat)
  /-- "Expected e, got g Bytes" -/
  | expectedGot (expected got : Nat)
  /-- "Invalid InternalServer message." -/
  | invalidMsg
  /-- "Invalid DeviceConnectResponse message." (responseType unreadable) -/
  | invalidConnectResponse
  /-- "Invalid responseType in DeviceConnectResponse c." -/
  | invalidResponseType (code : Nat)
  /-- `CommunicationError(e)` wrapping a builtin `ConnectionError` -/
  | fromConnErr
  deriving DecidableEq, Repr

/-- The exceptions defined in `exceptions.py`. -/
inductive ClientError where
  | connectErr (k : ConnectErrKind)
  | commErr (k : CommErrKind) (info : ErrInfo)
  | noCommand
  | contextDestroyed
  deriving DecidableEq, Repr

/-- A raised Python exception: either one of the library's own
(`ClientError`) or one of the builtins the source raises or catches. -/
inductive PyError where
  | client (e : ClientError)
  /-- builtin `TimeoutError` / `socket.timeout` -/
  | timeoutErr
  /-- builtin `ConnectionError` -/
  | connectionError
  /-- builtin `ValueError` ("Timeout must be positive.") -/
  | valueErr
  /-- `raise last_exception` with `last_exception` never assigned
  (only reachable with a retry budget of 0) -/
  | unboundLocal
  deriving DecidableEq, Repr

/-! ## Protobuf message model (`InternalProtocol_pb2` as consumed by the client)

The client only inspects: `HasField("deviceConnectResponse")`,
`deviceConnectResponse.responseType`, `HasField("deviceCommand")`, and
`deviceCommand.commandData`.  `responseType = none` models the
`AttributeError` branch of `_connection_sequence` (code unreadable). -/

structure DeviceConnectResponse where
  responseType : Option Nat
  deriving DecidableEq, Repr

structure DeviceCommand where
  commandData : List Nat
  deriving DecidableEq, Repr

structure InternalServerMsg where
  deviceConnectResponse : Option DeviceConnectResponse := none
  deviceCommand : Option DeviceCommand := none
  deriving DecidableEq, Repr

/-! ## Framing transport (`client_lib/request.py`)

Bytes are `Nat` (interesting only as opaque tokens and for lengths).
A socket's read side is a finite list of `RecvEvent`s: each `recv` call
either returns a chunk of bytes (an empty chunk models the peer having
closed the connection, as does running off the end of the list) or times
out.  Chunk sizes are arbitrary, modelling partial reads. -/

/-- `struct.pack(">I", n)`: 4-byte unsigned big-endian encoding. -/
def packBE4 (n : Nat) : List Nat :=
  [n / 16777216 % 256, n / 65536 % 256, n / 256 % 256, n % 256]

/-- `struct.unpack(">I", b)[0]` on a 4-byte buffer. -/
def unpackBE4 (l : List Nat) : Nat :=
  l.foldl (fun a b => a * 256 + b) 0

/-- `self.header_len = len(struct.pack(">I", ...))` -/
def HEADER_LEN : Nat := 4

/-- `Request._send`: the bytes handed to `conn.sendall` — a 4-byte
big-endian length prefix followed by the message. -/
def sendBytes (message : List Nat) : List Nat :=
  packBE4 message.length ++ message

/-- One `conn.recv(...)` interaction. -/
inductive RecvEvent where
  /-- `recv` returned these bytes; `[]` is the peer having closed -/
  | chunk (data : List Nat)
  /-- `recv` raised `TimeoutError` / `socket.timeout` -/
  | timedOut
  deriving DecidableEq, Repr

/-- The data content of a list of receive events. -/
def eventsData : List RecvEvent → List Nat
  | [] => []
  | .chunk d :: rest => d ++ eventsData rest
  | .timedOut :: rest => eventsData rest

/-- `e` is a chunk carrying at least one byte. -/
def isDataChunk : RecvEvent → Bool
  | .chunk (_ :: _) => true
  | _ => false

/-- The accumulate-reads loop of `Request._retrieve`
(`while len(buff) < target: data = recv(...); if not data: break; buff += data`),
returning the grown buffer and the unconsumed events, or
`ServerTookTooLong` if a read timed out. -/
def recvLoop (target : Nat) (buff : List Nat) (evs : List RecvEvent) :
    Except PyError (List Nat × List RecvEvent) :=
  if buff.length < target then
    match evs with
    | [] => .ok (buff, [])
    | .timedOut :: _ => .error (.client (.commErr .serverTookTooLong .noInfo))
    | .chunk [] :: rest => .ok (buff, rest)
    | .chunk (b :: d) :: rest => recvLoop target (buff ++ (b :: d)) rest
  else
    .ok (buff, evs)

/-- `Request._retrieve`: read a 4-byte length prefix (accumulating partial
reads), decode it, read exactly that many payload bytes, with
`CommunicationError("Expected e, got g Bytes")` on truncation. -/
def retrieve (evs : List RecvEvent) : Except PyError (List Nat) :=
  match recvLoop HEADER_LEN [] evs with
  | .error e => .error e
  | .ok (buff, evs1) =>
    if buff.length < HEADER_LEN then
      .error (.client (.commErr .communicationError (.expectedGot HEADER_LEN buff.length)))
    else
      let expected := unpackBE4 (buff.take HEADER_LEN)
      let respBuff := buff.drop HEADER_LEN
      match recvLoop expected respBuff evs1 with
      | .error e => .error e
      | .ok (respBuff2, _) =>
        if respBuff2.length ≠ expected then
          .error (.client (.commErr .communicationError (.expectedGot expected respBuff2.length)))
        else
          .ok respBuff2

/-! ## Client state and lifecycle (`InternalClient.py`, both variants)

The mutable attributes the embedded methods touch: `_client_socket`
(presence of the connection handle, tagged with an id so distinct sockets
are distinguishable), `_is_connected` (main variant only; the lib variant
has no such attribute and the embedded lib functions ignore the field),
and `_current_command`. -/

structure ClientState where
  clientSocket : Option Nat
  isConnected : Bool
  currentCommand : Option (List Nat)
  deriving DecidableEq, Repr

/-- `destroy` of the main variant: if a socket is present, close it, drop
it and clear `_is_connected`; otherwise do nothing. -/
def destroyMain (s : ClientState) : ClientState :=
  match s.clientSocket with
  | some _ => { s with clientSocket := none, isConnected := false }
  | none => s

/-- `destroy` of the `client_lib` variant: same, but there is no
`_is_connected` attribute to clear. -/
def destroyLib (s : ClientState) : ClientState :=
  match s.clientSocket with
  | some _ => { s with clientSocket := none }
  | none => s

/-! ## Handshake (`_connection_sequence`) -/

/-- Modelled from the spec: the generated protobuf module
`InternalProtocol_pb2` is not under `src/`; per the spec's response-code
table, `DeviceConnectResponse.ResponseType.OK` is `0`. -/
def RESPONSE_TYPE_OK : Nat := 0

/-- The `CONNECT_RESPONSE_EXCEPTIONS` dict (identical in both variants):
lookup of a response code among the four rejection exceptions. -/
def CONNECT_RESPONSE_EXCEPTIONS (code : Nat) : Option ConnectErrKind :=
  match code with
  | 1 => some .alreadyConnected
  | 2 => some .moduleNotSupported
  | 3 => some .deviceNotSupported
  | 4 => some .higherPriorityAlreadyConnected
  | _ => none

/-- `_connection_sequence`, from the point where the framed response has
been received and parsed (identical in both variants): check the
`deviceConnectResponse` field, read `responseType`, accept `OK`, map the
four known rejection codes to their exceptions, and treat anything else
as `CommunicationError`. -/
def connection_sequence (msg : InternalServerMsg) : Except PyError Unit :=
  match msg.deviceConnectResponse with
  | none => .error (.client (.commErr .communicationError .invalidMsg))
  | some resp =>
    match resp.responseType with
    | none => .error (.client (.commErr .communicationError .invalidConnectResponse))
    | some code =>
      if code ≠ RESPONSE_TYPE_OK then
        match CONNECT_RESPONSE_EXCEPTIONS code with
        | none => .error (.client (.commErr .communicationError (.invalidResponseType code)))
        | some k => .error (.client (.connectErr k))
      else
        .ok ()

/-! ## Connection establishment (`_establish_connection`)

Each attempt's environment says what `socket.create_connection` plus the
handshake request/response did on that attempt. -/

/-- What `Request.send_request` inside `_connection_sequence` did. -/
inductive HandshakeEnv where
  /-- the framed read raised `ServerTookTooLong` (or the send timed out) -/
  | reqTimeout
  /-- a builtin `ConnectionError` escaped from the socket send/recv -/
  | reqConnError
  /-- the framed read raised `CommunicationError` (truncated response) -/
  | reqCommError (info : ErrInfo)
  /-- a full framed response arrived and parsed to `msg` -/
  | response (msg : InternalServerMsg)
  deriving DecidableEq, Repr

/-- Result of running `_connection_sequence` under a `HandshakeEnv`. -/
def runHandshake : HandshakeEnv → Except PyError Unit
  | .reqTimeout => .error (.client (.commErr .serverTookTooLong .noInfo))
  | .reqConnError => .error .connectionError
  | .reqCommError i => .error (.client (.commErr .communicationError i))
  | .response msg => connection_sequence msg

/-- One connection attempt's environment. -/
inductive ConnectOutcome where
  /-- `socket.create_connection` raised `TimeoutError`/`socket.timeout` -/
  | createTimeout
  /-- `socket.create_connection` raised a builtin `ConnectionError` -/
  | createConnError
  /-- a socket (with id `sock`) was created, then the handshake ran -/
  | created (sock : Nat) (hs : HandshakeEnv)
  deriving DecidableEq, Repr

/-- The exception produced by one attempt body
(`create_connection` then `_connection_sequence`), if any. -/
def attemptResult : ConnectOutcome → Except PyError Unit
  | .createTimeout => .error .timeoutErr
  | .createConnError => .error .connectionError
  | .created _ hs => runHandshake hs

/-- The socket-attribute update of one attempt body: assignment of
`self._client_socket` happens exactly when `create_connection` succeeds. -/
def attemptSocket (o : ConnectOutcome) (s : ClientState) : ClientState :=
  match o with
  | .created sock _ => { s with clientSocket := some sock }
  | _ => s

/-- The `except` clauses of `_establish_connection` (identical in both
variants): which exceptions are caught, and the `last_exception` class
recorded for each.  `ConnectExceptions` are not caught. -/
def establishCatch : PyError → Option CommErrKind
  | .timeoutErr => some .serverTookTooLong
  | .client (.commErr .serverTookTooLong _) => some .serverTookTooLong
  | .connectionError => some .connectionRefused
  | .client (.commErr .communicationError _) => some .communicationError
  | _ => none

structure EstablishOut where
  state : ClientState
  /-- number of loop iterations entered (connection attempts started) -/
  attempts : Nat
  result : Except PyError Unit
  deriving Repr

/-- The retry loop of the main variant's `_establish_connection`:
`while tried_count < CONNECTION_RETRY_COUNT` with no `break` — a
successful attempt sets `_is_connected = True` and the loop continues;
after the loop, if not connected, `destroy()` and raise the last
recorded exception class annotated with the retry count. -/
def establishLoopMain (retryCount : Nat) (env : Nat → ConnectOutcome) :
    Nat → Nat → ClientState → Option CommErrKind → EstablishOut
  | 0, tried, s, lastExc =>
    if s.isConnected then
      ⟨s, tried, .ok ()⟩
    else
      match lastExc with
      | some k => ⟨destroyMain s, tried, .error (.client (.commErr k (.triedTimes retryCount)))⟩
      | none => ⟨destroyMain s, tried, .error .unboundLocal⟩
  | r + 1, tried, s, lastExc =>
    let s' := attemptSocket (env tried) s
    match attemptResult (env tried) with
    | .ok _ => establishLoopMain retryCount env r (tried + 1) { s' with isConnected := true } lastExc
    | .error e =>
      match establishCatch e with
      | some k => establishLoopMain retryCount env r (tried + 1) s' (some k)
      | none => ⟨s', tried + 1, .error e⟩

/-- `_establish_connection`, main variant.  The initial
`if self._client_socket is not None: self._client_socket.close()` closes
the old socket without clearing the attribute, so it leaves the embedded
state unchanged. -/
def establishMain (retryCount : Nat) (env : Nat → ConnectOutcome) (s : ClientState) :
    EstablishOut :=
  establishLoopMain retryCount env retryCount 0 s none

/-- The retry loop of the `client_lib` variant's `_establish_connection`:
identical except a successful attempt sets the local `client_connected`
and `break`s out, and the failure path uses the lib `destroy`. -/
def establishLoopLib (retryCount : Nat) (env : Nat → ConnectOutcome) :
    Nat → Nat → ClientState → Option CommErrKind → EstablishOut
  | 0, tried, s, lastExc =>
    match lastExc with
    | some k => ⟨destroyLib s, tried, .error (.client (.commErr k (.triedTimes retryCount)))⟩
    | none => ⟨destroyLib s, tried, .error .unboundLocal⟩
  | r + 1, tried, s, _lastExc =>
    let s' := attemptSocket (env tried) s
    match attemptResult (env tried) with
    | .ok _ => ⟨s', tried + 1, .ok ()⟩
    | .error e =>
      match establishCatch e with
      | some k => establishLoopLib retryCount env r (tried + 1) s' (some k)
      | none => ⟨s', tried + 1, .error e⟩

/-- `_establish_connection`, `client_lib` variant. -/
def establishLib (retryCount : Nat) (env : Nat → ConnectOutcome) (s : ClientState) :
    EstablishOut :=
  establishLoopLib retryCount env retryCount 0 s none

/-- Main variant class constant. -/
def CONNECTION_RETRY_COUNT_main : Nat := 1

/-- `client_lib` variant class constant. -/
def CONNECTION_RETRY_COUNT_lib : Nat := 2

/-- Main variant class constant. -/
def SEND_RETRY_COUNT_main : Nat := 1

/-- `client_lib` variant class constant. -/
def SEND_RETRY_COUNT_lib : Nat := 2

/-! ## Status exchange (`send_status`, `get_command`, main variant)

`_send_request` can raise `ServerTookTooLong` or `CommunicationError`
(a builtin `ConnectionError` is converted to `CommunicationError(e)`),
or return a parsed response. -/

/-- Environment outcome of one `_send_request` call. -/
inductive SendOutcome where
  | timeout
  | commError (info : ErrInfo)
  | ok (msg : InternalServerMsg)
  deriving DecidableEq, Repr

/-- Run `_send_request` under a `SendOutcome`. -/
def runSendRequest : SendOutcome → Except PyError InternalServerMsg
  | .timeout => .error (.client (.commErr .serverTookTooLong .noInfo))
  | .commError i => .error (.client (.commErr .communicationError i))
  | .ok msg => .ok msg

/-- Environment of one iteration of the `send_status` retry loop:
the per-attempt connect environment for its `_establish_connection`
call, and the outcome of the `_send_request` that follows it. -/
structure RetryEnv where
  conn : Nat → ConnectOutcome
  send : SendOutcome

/-- The tail of `send_status` once a response `msg` is at hand:
`HasField("deviceCommand")` check, then
`self._current_command = msg.deviceCommand.commandData`. -/
def handleCommandResponse (msg : InternalServerMsg) (s : ClientState) :
    ClientState × Except PyError Unit :=
  match msg.deviceCommand with
  | none => (s, .error (.client (.commErr .communicationError .invalidMsg)))
  | some c => ({ s with currentCommand := some c.commandData }, .ok ())

/-- The reconnect-and-resend loop of `send_status` (main variant):
`while tried < SEND_RETRY_COUNT and not status_sent`, each iteration
running `_establish_connection()` then `_send_request(...)`;
`CommunicationExceptions` are recorded and the loop continues,
`ConnectExceptions` destroy the client and propagate, success `break`s;
an exhausted budget destroys the client and re-raises `last_exception`.
Returns the state, the final value of `tried`, and the response or the
raised exception. -/
def sendRetryLoop (connRetryCount : Nat) (retries : Nat → RetryEnv) :
    Nat → Nat → ClientState → Option ClientError →
    ClientState × Nat × Except PyError InternalServerMsg
  | 0, tried, s, lastExc =>
    match lastExc with
    | some e => (destroyMain s, tried, .error (.client e))
    | none => (destroyMain s, tried, .error .unboundLocal)
  | r + 1, tried, s, _lastExc =>
    let eo := establishMain connRetryCount (retries tried).conn s
    match eo.result with
    | .error (.client (.commErr k i)) =>
      sendRetryLoop connRetryCount retries r (tried + 1) eo.state (some (.commErr k i))
    | .error (.client (.connectErr k)) =>
      (destroyMain eo.state, tried + 1, .error (.client (.connectErr k)))
    | .error e => (eo.state, tried + 1, .error e)
    | .ok _ =>
      match runSendRequest (retries tried).send with
      | .error (.client (.commErr k i)) =>
        sendRetryLoop connRetryCount retries r (tried + 1) eo.state (some (.commErr k i))
      | .error (.client (.connectErr k)) =>
        (destroyMain eo.state, tried + 1, .error (.client (.connectErr k)))
      | .error e => (eo.state, tried + 1, .error e)
      | .ok msg => (eo.state, tried, .ok msg)

/-- `send_status` (main variant).  `data` is the opaque status payload
(used only to build the status message, which the environment abstracts),
`first` the outcome of the initial `_send_request`, `retries` the
environments of the retry iterations. -/
def send_status (sendRetryCount connRetryCount : Nat) (first : SendOutcome)
    (retries : Nat → RetryEnv) (_data : List Nat) (timeout : Int) (s : ClientState) :
    ClientState × Except PyError Unit :=
  if s.clientSocket = none then
    (s, .error (.client .contextDestroyed))
  else if timeout < 0 then
    (s, .error .valueErr)
  else
    match runSendRequest first with
    | .ok msg => handleCommandResponse msg s
    | .error _ =>
      let s1 := { s with isConnected := false }
      match sendRetryLoop connRetryCount retries sendRetryCount 0 s1 none with
      | (s2, _, .error e) => (s2, .error e)
      | (s2, _, .ok msg) => handleCommandResponse msg s2

/-- `get_command` (textually identical logic in both variants): the
method performs no assignment, so the state is returned unchanged. -/
def get_command (s : ClientState) : ClientState × Except PyError (List Nat) :=
  if s.clientSocket = none then
    (s, .error (.client .contextDestroyed))
  else
    match s.currentCommand with
    | none => (s, .error (.client .noCommand))
    | some c => (s, .ok c)

/-! ## Helper lemmas -/

@[simp] theorem attemptSocket_isConnected (o : ConnectOutcome) (s : ClientState) :
    (attemptSocket o s).isConnected = s.isConnected := by
  cases o <;> rfl

@[simp] theorem attemptSocket_currentCommand (o : ConnectOutcome) (s : ClientState) :
    (attemptSocket o s).currentCommand = s.currentCommand := by
  cases o <;> rfl

theorem destroyMain_disconnected (s : ClientState) (h : s.isConnected = false) :
    destroyMain s = ⟨none, false, s.currentCommand⟩ := by
  rcases s with ⟨sock, conn, cmd⟩
  cases sock <;> simp_all [destroyMain]

@[simp] theorem destroyMain_currentCommand (s : ClientState) :
    (destroyMain s).currentCommand = s.currentCommand := by
  rcases s with ⟨sock, conn, cmd⟩
  cases sock <;> simp [destroyMain]

@[simp] theorem destroyMain_clientSocket (s : ClientState) :
    (destroyMain s).clientSocket = none := by
  rcases s with ⟨sock, conn, cmd⟩
  cases sock <;> simp [destroyMain]

/-- A response code above `4` is not in the rejection dict. -/
theorem CONNECT_RESPONSE_EXCEPTIONS_none (c : Nat) (h : 4 < c) :
    CONNECT_RESPONSE_EXCEPTIONS c = none := by
  match c with
  | 0 | 1 | 2 | 3 | 4 => omega
  | n + 5 => rfl

/-! ## C1 -/

/-- C1: for every handshake response, `_connection_sequence` accepts code
`0`, raises exactly the corresponding rejection exception for codes
`1`–`4`, and raises `CommunicationError` (never a rejection) when the
connect-response field is absent, the code is unreadable, or the code is
any other non-success value. -/
theorem handshake_response_code_mapping (msg : InternalServerMsg) :
    (msg.deviceConnectResponse = none →
      connection_sequence msg =
        .error (.client (.commErr .communicationError .invalidMsg))) ∧
    (∀ r, msg.deviceConnectResponse = some r → r.responseType = none →
      connection_sequence msg =
        .error (.client (.commErr .communicationError .invalidConnectResponse))) ∧
    (∀ r, msg.deviceConnectResponse = some r → r.responseType = some 0 →
      connection_sequence msg = .ok ()) ∧
    (∀ r, msg.deviceConnectResponse = some r →
      (r.responseType = some 1 →
        connection_sequence msg = .error (.client (.connectErr .alreadyConnected))) ∧
      (r.responseType = some 2 →
        connection_sequence msg = .error (.client (.connectErr .moduleNotSupported))) ∧
      (r.responseType = some 3 →
        connection_sequence msg = .error (.client (.connectErr .deviceNotSupported))) ∧
      (r.responseType = some 4 →
        connection_sequence msg =
          .error (.client (.connectErr .higherPriorityAlreadyConnected)))) ∧
    (∀ r c, msg.deviceConnectResponse = some r → r.responseType = some c → 4 < c →
      connection_sequence msg =
        .error (.client (.commErr .communicationError (.invalidResponseType c)))) := by
  refine ⟨?_, ?_, ?_, ?_, ?_⟩
  · intro h
    simp [connection_sequence, h]
  · intro r h1 h2
    simp [connection_sequence, h1, h2]
  · intro r h1 h2
    simp [connection_sequence, h1, h2, RESPONSE_TYPE_OK]
  · intro r h1
    refine ⟨?_, ?_, ?_, ?_⟩ <;> intro h2 <;>
      simp [connection_sequence, h1, h2, RESPONSE_TYPE_OK, CONNECT_RESPONSE_EXCEPTIONS]
  · intro r c h1 h2 h3
    have h0 : c ≠ RESPONSE_TYPE_OK := by
      simp only [RESPONSE_TYPE_OK]
      omega
    simp [connection_sequence, h1, h2, h0, CONNECT_RESPONSE_EXCEPTIONS_none c h3]

/-- Witness for C1 at response code `1`. -/
theorem handshake_response_code_mapping_witness :
    connection_sequence ⟨some ⟨some 1⟩, none⟩ =
      .error (.client (.connectErr .alreadyConnected)) :=
  ((handshake_response_code_mapping ⟨some ⟨some 1⟩, none⟩).2.2.2.1 ⟨some 1⟩ rfl).1 rfl

/-! ## C7 -/

/-- C7: `send_status` on a destroyed client raises
`ContextAlreadyDestroyed`, and with a negative timeout on a
non-destroyed client raises `ValueError`; in both cases the result is
independent of the whole network environment (no I/O is attempted) and
the state is returned unchanged. -/
theorem send_status_usage_guards (R c : Nat) (first : SendOutcome)
    (retries : Nat → RetryEnv) (data : List Nat) (t : Int) (s : ClientState) :
    (s.clientSocket = none →
      send_status R c first retries data t s = (s, .error (.client .contextDestroyed))) ∧
    (s.clientSocket ≠ none → t < 0 →
      send_status R c first retries data t s = (s, .error .valueErr)) := by
  constructor
  · intro h
    simp [send_status, h]
  · intro h ht
    simp [send_status, h, ht]

/-- Witness for C7: negative timeout on a live client. -/
theorem send_status_usage_guards_witness :
    send_status 1 1 .timeout (fun _ => ⟨fun _ => .createTimeout, .timeout⟩) [] (-1)
        ⟨some 0, true, none⟩ = (⟨some 0, true, none⟩, .error .valueErr) :=
  (send_status_usage_guards 1 1 .timeout (fun _ => ⟨fun _ => .createTimeout, .timeout⟩)
    [] (-1) ⟨some 0, true, none⟩).2 (by simp) (by decide)

/-! ## C8 -/

/-- C8: `get_command` raises `ContextAlreadyDestroyed` on a destroyed
client, raises `NoCommandError` when no command is pending, otherwise
returns the stored payload; the state is returned unchanged in every
case, so repeated calls return the same value. -/
theorem get_command_spec (s : ClientState) :
    (s.clientSocket = none →
      get_command s = (s, .error (.client .contextDestroyed))) ∧
    (s.clientSocket ≠ none → s.currentCommand = none →
      get_command s = (s, .error (.client .noCommand))) ∧
    (∀ cmd, s.clientSocket ≠ none → s.currentCommand = some cmd →
      get_command s = (s, .ok cmd)) ∧
    (get_command s).1 = s := by
  refine ⟨?_, ?_, ?_, ?_⟩
  · intro h
    simp [get_command, h]
  · intro h hc
    simp [get_command, h, hc]
  · intro cmd h hc
    simp [get_command, h, hc]
  · by_cases h : s.clientSocket = none
    · simp [get_command, h]
    · cases hc : s.currentCommand <;> simp [get_command, h, hc]

/-- Witness for C8: a stored command is returned unchanged. -/
theorem get_command_spec_witness :
    get_command ⟨some 3, true, some [1, 2]⟩ = (⟨some 3, true, some [1, 2]⟩, .ok [1, 2]) :=
  (get_command_spec ⟨some 3, true, some [1, 2]⟩).2.2.1 [1, 2] (by simp) rfl

/-! ## C9 -/

/-- C9: `destroy` is idempotent in both variants: after a first call the
socket is gone (the client is destroyed), a second call is a no-op, and
no call can raise (both are total functions of the state). -/
theorem destroy_idempotent (s : ClientState) :
    destroyMain (destroyMain s) = destroyMain s ∧
    (destroyMain s).clientSocket = none ∧
    destroyLib (destroyLib s) = destroyLib s ∧
    (destroyLib s).clientSocket = none := by
  rcases s with ⟨sock, conn, cmd⟩
  cases sock <;> simp [destroyMain, destroyLib]

/-! ## C10 -/

/-- C10: after a `send_status` whose response carries the command field
with an empty payload, the pending command is the empty byte string and
`get_command` returns it instead of raising `NoCommandError`: the unset
check tests for absence of a stored value, not emptiness. -/
theorem empty_command_not_absent (R c : Nat) (retries : Nat → RetryEnv)
    (data : List Nat) (t : Int) (s : ClientState) (sk : Nat) (msg : InternalServerMsg)
    (hs : s.clientSocket = some sk) (ht : 0 ≤ t) (hm : msg.deviceCommand = some ⟨[]⟩) :
    send_status R c (.ok msg) retries data t s =
      ({ s with currentCommand := some [] }, .ok ()) ∧
    get_command { s with currentCommand := some [] } =
      ({ s with currentCommand := some [] }, .ok []) := by
  have ht' : ¬ t < 0 := not_lt.mpr ht
  constructor
  · simp [send_status, hs, ht', runSendRequest, handleCommandResponse, hm]
  · simp [get_command, hs]

/-- Witness for C10. -/
theorem empty_command_not_absent_witness :
    send_status 1 1 (.ok ⟨none, some ⟨[]⟩⟩) (fun _ => ⟨fun _ => .createTimeout, .timeout⟩)
        [] 0 ⟨some 2, true, none⟩ = (⟨some 2, true, some []⟩, .ok ()) ∧
    get_command ⟨some 2, true, some []⟩ = (⟨some 2, true, some []⟩, .ok []) :=
  empty_command_not_absent 1 1 (fun _ => ⟨fun _ => .createTimeout, .timeout⟩)
    [] 0 ⟨some 2, true, none⟩ 2 ⟨none, some ⟨[]⟩⟩ rfl (by decide) rfl

/-! ## Framing transport lemmas (C5) -/

/-- Big-endian 4-byte round trip. -/
theorem unpackBE4_packBE4 (n : Nat) (h : n < 4294967296) :
    unpackBE4 (packBE4 n) = n := by
  simp only [packBE4, unpackBE4, List.foldl]
  omega

@[simp] theorem packBE4_length (n : Nat) : (packBE4 n).length = 4 := rfl

/-- `recvLoop` on a stream of nonempty data chunks: it succeeds, it
conserves bytes (buffer plus unconsumed data equals initial buffer plus
all data), and it stops only once the target is reached or the stream is
exhausted. -/
theorem recvLoop_spec (target : Nat) (evs : List RecvEvent) :
    ∀ buff : List Nat, (∀ e ∈ evs, isDataChunk e = true) →
      ∃ b' e', recvLoop target buff evs = .ok (b', e') ∧
        b' ++ eventsData e' = buff ++ eventsData evs ∧
        (target ≤ b'.length ∨ e' = []) ∧
        (∀ e ∈ e', isDataChunk e = true) := by
  induction evs with
  | nil =>
    intro buff _
    by_cases hlt : buff.length < target
    · exact ⟨buff, [], by simp [recvLoop, hlt], by simp [eventsData], .inr rfl, by simp⟩
    · exact ⟨buff, [], by simp [recvLoop, hlt], by simp [eventsData],
        .inl (Nat.le_of_not_lt hlt), by simp⟩
  | cons e rest ih =>
    intro buff h
    by_cases hlt : buff.length < target
    · have he : isDataChunk e = true := h e (List.mem_cons_self e rest)
      have hrest : ∀ x ∈ rest, isDataChunk x = true :=
        fun x hx => h x (List.mem_cons_of_mem e hx)
      cases e with
      | timedOut => simp [isDataChunk] at he
      | chunk dat =>
        cases dat with
        | nil => simp [isDataChunk] at he
        | cons b d =>
          obtain ⟨b', e', h1, h2, h3, h4⟩ := ih (buff ++ (b :: d)) hrest
          refine ⟨b', e', ?_, ?_, h3, h4⟩
          · rw [recvLoop, if_pos hlt]
            exact h1
          · rw [h2]
            simp [eventsData]
    · refine ⟨buff, e :: rest, ?_, rfl, .inl (Nat.le_of_not_lt hlt), h⟩
      cases e with
      | timedOut => simp [recvLoop, hlt]
      | chunk dat => cases dat <;> simp [recvLoop, hlt]

/-- Shared first phase: on a stream of nonempty chunks whose data is
`packBE4 n ++ rest2` the header loop yields a buffer holding at least the
whole prefix, and the prefix decodes to `n`. -/
theorem retrieve_header_phase (n : Nat) (rest2 : List Nat) (evs : List RecvEvent)
    (hgood : ∀ e ∈ evs, isDataChunk e = true)
    (hdata : eventsData evs = packBE4 n ++ rest2)
    (hn : n < 4294967296) :
    ∃ b1 e1, recvLoop HEADER_LEN [] evs = .ok (b1, e1) ∧
      4 ≤ b1.length ∧
      unpackBE4 (b1.take 4) = n ∧
      b1.drop 4 ++ eventsData e1 = rest2 ∧
      (∀ e ∈ e1, isDataChunk e = true) ∧
      (HEADER_LEN ≤ b1.length ∨ e1 = []) := by
  obtain ⟨b1, e1, h1, h2, h3, h4⟩ := recvLoop_spec HEADER_LEN evs [] hgood
  rw [List.nil_append, hdata] at h2
  have hlen4 : 4 ≤ b1.length := by
    rcases h3 with h3 | h3
    · exact h3
    · subst h3
      rw [show eventsData ([] : List RecvEvent) = [] from rfl, List.append_nil] at h2
      subst h2
      simp
  have htake : b1.take 4 = packBE4 n := by
    have : (b1 ++ eventsData e1).take 4 = b1.take 4 :=
      List.take_append_of_le_length hlen4
    rw [h2] at this
    rw [← this]
    rw [List.take_append_of_le_length (by simp)]
    simp
  have hdrop : b1.drop 4 ++ eventsData e1 = rest2 := by
    have hd : (b1 ++ eventsData e1).drop 4 = b1.drop 4 ++ eventsData e1 :=
      List.drop_append_of_le_length hlen4
    rw [h2] at hd
    rw [← hd]
    rw [List.drop_append_of_le_length (by simp)]
    simp
  exact ⟨b1, e1, h1, hlen4, by rw [htake]; exact unpackBE4_packBE4 n hn, hdrop, h4, h3⟩

/-- Full-message round trip of `Request._retrieve`: any chunking of a
well-formed frame (4-byte big-endian length prefix plus exactly that many
payload bytes) yields the payload. -/
theorem retrieve_roundtrip (payload : List Nat) (evs : List RecvEvent)
    (hgood : ∀ e ∈ evs, isDataChunk e = true)
    (hdata : eventsData evs = packBE4 payload.length ++ payload)
    (hn : payload.length < 4294967296) :
    retrieve evs = .ok payload := by
  obtain ⟨b1, e1, h1, hlen4, hdec, hdrop, hg1, _⟩ :=
    retrieve_header_phase payload.length payload evs hgood hdata hn
  obtain ⟨b2, e2, h2, hc2, hp2, _⟩ := recvLoop_spec payload.length e1 (b1.drop 4) hg1
  rw [hdrop] at hc2
  have hlens : b2.length + (eventsData e2).length = payload.length := by
    have := congrArg List.length hc2
    simpa using this
  have hb2 : b2 = payload := by
    rcases hp2 with hp2 | hp2
    · have hnil : eventsData e2 = [] := List.length_eq_zero.mp (by omega)
      rw [hnil, List.append_nil] at hc2
      exact hc2
    · subst hp2
      rw [show eventsData ([] : List RecvEvent) = [] from rfl, List.append_nil] at hc2
      exact hc2
  have hne : ¬ b2.length ≠ payload.length := by
    rw [hb2]
    simp
  simp only [retrieve, h1]
  rw [if_neg (by simp only [HEADER_LEN]; omega)]
  simp only [HEADER_LEN, hdec, h2]
  rw [if_neg hne, hb2]

/-- If the peer closes before the 4 prefix bytes arrive,
`Request._retrieve` raises `CommunicationError("Expected 4, got g Bytes")`. -/
theorem retrieve_truncated_prefix (evs : List RecvEvent) (w : List Nat)
    (hgood : ∀ e ∈ evs, isDataChunk e = true)
    (hdata : eventsData evs = w) (hw : w.length < 4) :
    retrieve evs =
      .error (.client (.commErr .communicationError (.expectedGot 4 w.length))) := by
  obtain ⟨b1, e1, h1, h2, h3, _⟩ := recvLoop_spec HEADER_LEN evs [] hgood
  rw [List.nil_append, hdata] at h2
  have hlenle : b1.length + (eventsData e1).length = w.length := by
    have := congrArg List.length h2
    simpa using this
  have hb1 : b1 = w := by
    rcases h3 with h3 | h3
    · exfalso
      have : (4 : Nat) ≤ b1.length := h3
      omega
    · subst h3
      rw [show eventsData ([] : List RecvEvent) = [] from rfl, List.append_nil] at h2
      exact h2
  simp only [retrieve, h1]
  rw [if_pos (by rw [hb1]; exact hw), hb1]
  rfl

/-- If the prefix arrives but the peer closes before the declared number
of payload bytes, `Request._retrieve` raises
`CommunicationError("Expected n, got g Bytes")`. -/
theorem retrieve_truncated_payload (n : Nat) (part : List Nat) (evs : List RecvEvent)
    (hgood : ∀ e ∈ evs, isDataChunk e = true)
    (hdata : eventsData evs = packBE4 n ++ part)
    (hlt : part.length < n) (hn : n < 4294967296) :
    retrieve evs =
      .error (.client (.commErr .communicationError (.expectedGot n part.length))) := by
  obtain ⟨b1, e1, h1, hlen4, hdec, hdrop, hg1, _⟩ :=
    retrieve_header_phase n part evs hgood hdata hn
  obtain ⟨b2, e2, h2, hc2, hp2, _⟩ := recvLoop_spec n e1 (b1.drop 4) hg1
  rw [hdrop] at hc2
  have hlens : b2.length + (eventsData e2).length = part.length := by
    have := congrArg List.length hc2
    simpa using this
  have hb2 : b2 = part := by
    rcases hp2 with hp2 | hp2
    · exfalso
      omega
    · subst hp2
      rw [show eventsData ([] : List RecvEvent) = [] from rfl, List.append_nil] at hc2
      exact hc2
  simp only [retrieve, h1]
  rw [if_neg (by simp only [HEADER_LEN]; omega)]
  simp only [HEADER_LEN, hdec, h2]
  rw [if_pos (by rw [hb2]; omega), hb2]

/-- A receive timeout surfaces as `ServerTookTooLong`. -/
theorem retrieve_timeout (rest : List RecvEvent) :
    retrieve (.timedOut :: rest) =
      .error (.client (.commErr .serverTookTooLong .noInfo)) := rfl

/-! ## C5 -/

/-- C5: `Request.send_request` writes a 4-byte unsigned big-endian length
prefix followed by the payload; `Request._retrieve` reads exactly 4
prefix bytes and exactly the declared number of payload bytes
(accumulating partial reads of arbitrary chunk sizes) and returns them;
a peer close before the prefix or the declared payload completes raises
`CommunicationError` reporting expected vs. actual byte counts; a read
timeout raises `ServerTookTooLong`, which is distinct from
`CommunicationError`. -/
theorem request_framing_spec :
    (∀ message : List Nat,
      sendBytes message = packBE4 message.length ++ message ∧
      (packBE4 message.length).length = 4 ∧
      (message.length < 4294967296 →
        unpackBE4 (packBE4 message.length) = message.length)) ∧
    (∀ (payload : List Nat) (evs : List RecvEvent),
      (∀ e ∈ evs, isDataChunk e = true) →
      eventsData evs = packBE4 payload.length ++ payload →
      payload.length < 4294967296 →
      retrieve evs = .ok payload) ∧
    (∀ (evs : List RecvEvent) (w : List Nat),
      (∀ e ∈ evs, isDataChunk e = true) → eventsData evs = w → w.length < 4 →
      retrieve evs =
        .error (.client (.commErr .communicationError (.expectedGot 4 w.length)))) ∧
    (∀ (n : Nat) (part : List Nat) (evs : List RecvEvent),
      (∀ e ∈ evs, isDataChunk e = true) → eventsData evs = packBE4 n ++ part →
      part.length < n → n < 4294967296 →
      retrieve evs =
        .error (.client (.commErr .communicationError (.expectedGot n part.length)))) ∧
    (∀ rest : List RecvEvent,
      retrieve (.timedOut :: rest) =
        .error (.client (.commErr .serverTookTooLong .noInfo))) ∧
    (∀ i e g, PyError.client (.commErr .serverTookTooLong i) ≠
      PyError.client (.commErr .communicationError (.expectedGot e g))) := by
  refine ⟨?_, ?_, ?_, ?_, ?_, ?_⟩
  · intro message
    exact ⟨rfl, rfl, fun h => unpackBE4_packBE4 message.length h⟩
  · intro payload evs h1 h2 h3
    exact retrieve_roundtrip payload evs h1 h2 h3
  · intro evs w h1 h2 h3
    exact retrieve_truncated_prefix evs w h1 h2 h3
  · intro n part evs h1 h2 h3 h4
    exact retrieve_truncated_payload n part evs h1 h2 h3 h4
  · intro rest
    exact retrieve_timeout rest
  · intro i e g h
    simp at h

/-- Witness for C5: a frame delivered in three odd-sized chunks
round-trips to its payload. -/
theorem request_framing_spec_witness :
    retrieve [.chunk [0, 0], .chunk [0, 2, 9], .chunk [8]] = .ok [9, 8] :=
  request_framing_spec.2.1 [9, 8] [.chunk [0, 0], .chunk [0, 2, 9], .chunk [8]]
    (by decide) (by decide) (by decide)

/-! ## Connection-establishment loop lemmas (C2, C3, C4) -/

/-- Attempt `o` fails with an exception the `_establish_connection` loop
catches, recorded as class `k`. -/
def attemptTransient (o : ConnectOutcome) (k : CommErrKind) : Prop :=
  ∃ e, attemptResult o = .error e ∧ establishCatch e = some k

/-- One-step unfolding of the main loop at budget `0`. -/
theorem establishLoopMain_zero (N : Nat) (env : Nat → ConnectOutcome) (tried : Nat)
    (s : ClientState) (lastE : Option CommErrKind) :
    establishLoopMain N env 0 tried s lastE =
      if s.isConnected then ⟨s, tried, .ok ()⟩
      else
        match lastE with
        | some k => ⟨destroyMain s, tried, .error (.client (.commErr k (.triedTimes N)))⟩
        | none => ⟨destroyMain s, tried, .error .unboundLocal⟩ := rfl

/-- One-step unfolding of the main loop at budget `r + 1`. -/
theorem establishLoopMain_succ (N : Nat) (env : Nat → ConnectOutcome) (r tried : Nat)
    (s : ClientState) (lastE : Option CommErrKind) :
    establishLoopMain N env (r + 1) tried s lastE =
      match attemptResult (env tried) with
      | .ok _ => establishLoopMain N env r (tried + 1)
          { attemptSocket (env tried) s with isConnected := true } lastE
      | .error e =>
        match establishCatch e with
        | some k =>
          establishLoopMain N env r (tried + 1) (attemptSocket (env tried) s) (some k)
        | none => ⟨attemptSocket (env tried) s, tried + 1, .error e⟩ := rfl

/-- An all-transient run of the main variant's retry loop: every attempt
is entered, the state ends destroyed, and the raised error is the class
recorded on the last attempt, annotated with the configured retry count. -/
theorem establishLoopMain_transient (N : Nat) (env : Nat → ConnectOutcome)
    (K : Nat → CommErrKind) :
    ∀ (r tried : Nat) (s : ClientState) (lastE : Option CommErrKind),
      (∀ j, j < r + 1 → attemptTransient (env (tried + j)) (K (tried + j))) →
      s.isConnected = false →
      establishLoopMain N env (r + 1) tried s lastE =
        ⟨⟨none, false, s.currentCommand⟩, tried + (r + 1),
          .error (.client (.commErr (K (tried + r)) (.triedTimes N)))⟩ := by
  intro r
  induction r with
  | zero =>
    intro tried s lastE h hc
    obtain ⟨e, he, hcatch⟩ := h 0 (by omega)
    rw [Nat.add_zero] at he hcatch
    have hc' : (attemptSocket (env tried) s).isConnected = false := by
      simp [hc]
    rw [establishLoopMain_succ]
    rw [he]
    simp only [hcatch]
    rw [establishLoopMain_zero]
    rw [if_neg (by simp [hc])]
    rw [destroyMain_disconnected _ hc']
    simp
  | succ rr ih =>
    intro tried s lastE h hc
    obtain ⟨e, he, hcatch⟩ := h 0 (by omega)
    rw [Nat.add_zero] at he hcatch
    have hc' : (attemptSocket (env tried) s).isConnected = false := by
      simp [hc]
    have hnext : ∀ j, j < rr + 1 →
        attemptTransient (env (tried + 1 + j)) (K (tried + 1 + j)) := by
      intro j hj
      have := h (j + 1) (by omega)
      rwa [show tried + (j + 1) = tried + 1 + j by omega] at this
    have hrec := ih (tried + 1) (attemptSocket (env tried) s) (some (K tried)) hnext hc'
    rw [establishLoopMain_succ, he]
    simp only [hcatch]
    rw [hrec]
    simp only [attemptSocket_currentCommand]
    rw [show tried + 1 + (rr + 1) = tried + (rr + 1 + 1) by omega,
      show tried + 1 + rr = tried + (rr + 1) by omega]

/-- A run of the main variant's retry loop whose first `k` attempts fail
transiently and whose attempt `k` creates a socket and is rejected by
the handshake: the rejection escapes the loop at once (attempt count
`k + 1`, independent of the remaining budget), and the state keeps the
newly created socket — `destroy` is not called on this path. -/
theorem establishLoopMain_reject (N : Nat) (env : Nat → ConnectOutcome)
    (K : Nat → CommErrKind) (sock : Nat) (hs : HandshakeEnv) (rk : ConnectErrKind)
    (hhs : runHandshake hs = .error (.client (.connectErr rk))) :
    ∀ (k r tried : Nat) (s : ClientState) (lastE : Option CommErrKind),
      (∀ j, j < k → attemptTransient (env (tried + j)) (K (tried + j))) →
      env (tried + k) = .created sock hs →
      k < r →
      establishLoopMain N env r tried s lastE =
        ⟨⟨some sock, s.isConnected, s.currentCommand⟩, tried + k + 1,
          .error (.client (.connectErr rk))⟩ := by
  intro k
  induction k with
  | zero =>
    intro r tried s lastE _ henv hk
    obtain ⟨r', rfl⟩ : ∃ r', r = r' + 1 := ⟨r - 1, by omega⟩
    rw [Nat.add_zero] at henv
    rw [establishLoopMain_succ, henv]
    show (match attemptResult (.created sock hs) with
      | .ok _ => establishLoopMain N env r' (tried + 1)
          { attemptSocket (.created sock hs) s with isConnected := true } lastE
      | .error e =>
        match establishCatch e with
        | some k =>
          establishLoopMain N env r' (tried + 1) (attemptSocket (.created sock hs) s) (some k)
        | none => ⟨attemptSocket (.created sock hs) s, tried + 1, .error e⟩) = _
    simp only [attemptResult, hhs]
    rcases s with ⟨so, co, cm⟩
    simp [attemptSocket, establishCatch]
  | succ kk ih =>
    intro r tried s lastE h henv hk
    obtain ⟨r', rfl⟩ : ∃ r', r = r' + 1 := ⟨r - 1, by omega⟩
    obtain ⟨e, he, hcatch⟩ := h 0 (by omega)
    rw [Nat.add_zero] at he hcatch
    have hnext : ∀ j, j < kk → attemptTransient (env (tried + 1 + j)) (K (tried + 1 + j)) := by
      intro j hj
      have := h (j + 1) (by omega)
      rwa [show tried + (j + 1) = tried + 1 + j by omega] at this
    have henv' : env (tried + 1 + kk) = .created sock hs := by
      rwa [show tried + 1 + kk = tried + (kk + 1) by omega]
    have hrec := ih r' (tried + 1) (attemptSocket (env tried) s) (some (K tried))
      hnext henv' (by omega)
    rw [establishLoopMain_succ, he]
    simp only [hcatch]
    rw [hrec]
    simp only [attemptSocket_isConnected, attemptSocket_currentCommand]
    rw [show tried + 1 + kk + 1 = tried + (kk + 1) + 1 by omega]

/-! ## C3 -/

/-- C3 (failing input, main variant): with a connection-attempt retry
count of `2` and an environment in which attempt 1 already connects and
completes the handshake (response code `0`), the main variant's
`_establish_connection` still starts a second attempt — its `while` loop
has no `break` on success — whereas the `client_lib` variant stops after
the successful first attempt.  Both return without error and mark the
client connected. -/
theorem establish_success_retry_evaluation :
    (establishMain 2 (fun _ => .created 5 (.response ⟨some ⟨some 0⟩, none⟩))
        ⟨none, false, none⟩).attempts = 2 ∧
    (establishMain 2 (fun _ => .created 5 (.response ⟨some ⟨some 0⟩, none⟩))
        ⟨none, false, none⟩).result = .ok () ∧
    (establishMain 2 (fun _ => .created 5 (.response ⟨some ⟨some 0⟩, none⟩))
        ⟨none, false, none⟩).state.isConnected = true ∧
    (establishLib 2 (fun _ => .created 5 (.response ⟨some ⟨some 0⟩, none⟩))
        ⟨none, false, none⟩).attempts = 1 ∧
    (establishLib 2 (fun _ => .created 5 (.response ⟨some ⟨some 0⟩, none⟩))
        ⟨none, false, none⟩).result = .ok () :=
  ⟨rfl, rfl, rfl, rfl, rfl⟩

/-! ## Send-status retry-loop lemmas (C2, C4, C6) -/

/-- The exception (or response) produced by one iteration of the
`send_status` retry loop — `_establish_connection()` followed, on its
success, by `_send_request(...)` — entered in state `s`. -/
def sendIterResult (c : Nat) (re : RetryEnv) (s : ClientState) :
    Except PyError InternalServerMsg :=
  match (establishMain c re.conn s).result with
  | .error e => .error e
  | .ok _ => runSendRequest re.send

/-- The client state at entry of retry iteration `j` (iterations are
numbered from `tried`), starting from state `s`: each earlier iteration
leaves the state its `_establish_connection` call produced
(`_send_request` itself does not mutate the embedded state). -/
def iterTrace (c : Nat) (retries : Nat → RetryEnv) (tried : Nat) (s : ClientState) :
    Nat → ClientState
  | 0 => s
  | j + 1 =>
    (establishMain c (retries (tried + j)).conn (iterTrace c retries tried s j)).state

@[simp] theorem iterTrace_zero (c : Nat) (retries : Nat → RetryEnv) (tried : Nat)
    (s : ClientState) : iterTrace c retries tried s 0 = s := rfl

theorem iterTrace_succ (c : Nat) (retries : Nat → RetryEnv) (tried : Nat)
    (s : ClientState) (j : Nat) :
    iterTrace c retries tried s (j + 1) =
      (establishMain c (retries (tried + j)).conn (iterTrace c retries tried s j)).state := rfl

theorem iterTrace_shift (c : Nat) (retries : Nat → RetryEnv) (tried : Nat) (s : ClientState) :
    ∀ j, iterTrace c retries (tried + 1) ((establishMain c (retries tried).conn s).state) j =
      iterTrace c retries tried s (j + 1) := by
  intro j
  induction j with
  | zero =>
    rw [iterTrace_zero, iterTrace_succ, Nat.add_zero, iterTrace_zero]
  | succ jj ih =>
    rw [iterTrace_succ, ih, iterTrace_succ,
      show tried + 1 + jj = tried + (jj + 1) by omega]
    rfl

/-- Step lemma: an iteration whose combined result is a
`CommunicationExceptions` instance records it and continues the loop. -/
theorem sendRetryLoop_step_commErr (c : Nat) (retries : Nat → RetryEnv) (r tried : Nat)
    (s : ClientState) (lastE : Option ClientError) (k : CommErrKind) (i : ErrInfo)
    (h : sendIterResult c (retries tried) s = .error (.client (.commErr k i))) :
    sendRetryLoop c retries (r + 1) tried s lastE =
      sendRetryLoop c retries r (tried + 1)
        (establishMain c (retries tried).conn s).state (some (.commErr k i)) := by
  cases heo : (establishMain c (retries tried).conn s).result with
  | error e =>
    simp only [sendIterResult, heo] at h
    rw [Except.error.injEq] at h
    subst h
    simp only [sendRetryLoop, heo]
  | ok u =>
    simp only [sendIterResult, heo] at h
    simp only [sendRetryLoop, heo, h]

/-- Step lemma: an iteration whose combined result is a rejection
(`ConnectExceptions`) destroys the client and propagates it at once,
regardless of the remaining budget. -/
theorem sendRetryLoop_step_connectErr (c : Nat) (retries : Nat → RetryEnv) (r tried : Nat)
    (s : ClientState) (lastE : Option ClientError) (rk : ConnectErrKind)
    (h : sendIterResult c (retries tried) s = .error (.client (.connectErr rk))) :
    sendRetryLoop c retries (r + 1) tried s lastE =
      (destroyMain (establishMain c (retries tried).conn s).state, tried + 1,
        .error (.client (.connectErr rk))) := by
  cases heo : (establishMain c (retries tried).conn s).result with
  | error e =>
    simp only [sendIterResult, heo] at h
    rw [Except.error.injEq] at h
    subst h
    simp only [sendRetryLoop, heo]
  | ok u =>
    simp only [sendIterResult, heo] at h
    simp only [sendRetryLoop, heo, h]

/-- Step lemma: a successful iteration breaks out of the loop with the
response, leaving `tried` unchanged. -/
theorem sendRetryLoop_step_ok (c : Nat) (retries : Nat → RetryEnv) (r tried : Nat)
    (s : ClientState) (lastE : Option ClientError) (msg : InternalServerMsg)
    (h : sendIterResult c (retries tried) s = .ok msg) :
    sendRetryLoop c retries (r + 1) tried s lastE =
      ((establishMain c (retries tried).conn s).state, tried, .ok msg) := by
  cases heo : (establishMain c (retries tried).conn s).result with
  | error e =>
    simp only [sendIterResult, heo] at h
    simp at h
  | ok u =>
    simp only [sendIterResult, heo] at h
    simp only [sendRetryLoop, heo, h]

/-- One-step unfolding of the loop with budget `0`. -/
theorem sendRetryLoop_zero (c : Nat) (retries : Nat → RetryEnv) (tried : Nat)
    (s : ClientState) (lastE : Option ClientError) :
    sendRetryLoop c retries 0 tried s lastE =
      match lastE with
      | some e => (destroyMain s, tried, .error (.client e))
      | none => (destroyMain s, tried, .error .unboundLocal) := rfl

/-- An all-transient run of the `send_status` retry loop: every
iteration is entered, the budget is exhausted, the client is destroyed,
and the exception recorded on the last iteration is raised. -/
theorem sendRetryLoop_transient (c : Nat) (retries : Nat → RetryEnv)
    (K : Nat → CommErrKind) (I : Nat → ErrInfo) :
    ∀ (r tried : Nat) (s : ClientState) (lastE : Option ClientError),
      (∀ j, j < r + 1 → sendIterResult c (retries (tried + j)) (iterTrace c retries tried s j) =
        .error (.client (.commErr (K (tried + j)) (I (tried + j))))) →
      sendRetryLoop c retries (r + 1) tried s lastE =
        (destroyMain (iterTrace c retries tried s (r + 1)), tried + (r + 1),
          .error (.client (.commErr (K (tried + r)) (I (tried + r))))) := by
  intro r
  induction r with
  | zero =>
    intro tried s lastE h
    have h0 := h 0 (by omega)
    rw [Nat.add_zero, iterTrace_zero] at h0
    rw [sendRetryLoop_step_commErr c retries 0 tried s lastE _ _ h0, sendRetryLoop_zero]
    rw [iterTrace_succ, Nat.add_zero, iterTrace_zero]
    simp
  | succ rr ih =>
    intro tried s lastE h
    have h0 := h 0 (by omega)
    rw [Nat.add_zero, iterTrace_zero] at h0
    have hnext : ∀ j, j < rr + 1 →
        sendIterResult c (retries (tried + 1 + j))
          (iterTrace c retries (tried + 1) ((establishMain c (retries tried).conn s).state) j) =
        .error (.client (.commErr (K (tried + 1 + j)) (I (tried + 1 + j)))) := by
      intro j hj
      rw [iterTrace_shift, show tried + 1 + j = tried + (j + 1) by omega]
      exact h (j + 1) (by omega)
    have hrec := ih (tried + 1) ((establishMain c (retries tried).conn s).state)
      (some (.commErr (K tried) (I tried))) hnext
    rw [sendRetryLoop_step_commErr c retries (rr + 1) tried s lastE _ _ h0, hrec,
      iterTrace_shift,
      show tried + 1 + (rr + 1) = tried + (rr + 1 + 1) by omega,
      show tried + 1 + rr = tried + (rr + 1) by omega]

/-- A run of the `send_status` retry loop whose first `i` iterations
record transient errors and whose iteration `i` yields a rejection: the
client is destroyed and the rejection propagates at once, with no
further iteration entered, regardless of the remaining budget. -/
theorem sendRetryLoop_rejection (c : Nat) (retries : Nat → RetryEnv)
    (K : Nat → CommErrKind) (I : Nat → ErrInfo) (rk : ConnectErrKind) :
    ∀ (i r tried : Nat) (s : ClientState) (lastE : Option ClientError),
      (∀ j, j < i → sendIterResult c (retries (tried + j)) (iterTrace c retries tried s j) =
        .error (.client (.commErr (K (tried + j)) (I (tried + j))))) →
      sendIterResult c (retries (tried + i)) (iterTrace c retries tried s i) =
        .error (.client (.connectErr rk)) →
      i < r →
      sendRetryLoop c retries r tried s lastE =
        (destroyMain (iterTrace c retries tried s (i + 1)), tried + i + 1,
          .error (.client (.connectErr rk))) := by
  intro i
  induction i with
  | zero =>
    intro r tried s lastE _ hrej hk
    obtain ⟨r', rfl⟩ : ∃ r', r = r' + 1 := ⟨r - 1, by omega⟩
    rw [Nat.add_zero, iterTrace_zero] at hrej
    rw [sendRetryLoop_step_connectErr c retries r' tried s lastE rk hrej]
    rw [iterTrace_succ, Nat.add_zero, iterTrace_zero]
    simp
  | succ ii ih =>
    intro r tried s lastE h hrej hk
    obtain ⟨r', rfl⟩ : ∃ r', r = r' + 1 := ⟨r - 1, by omega⟩
    have h0 := h 0 (by omega)
    rw [Nat.add_zero, iterTrace_zero] at h0
    have hnext : ∀ j, j < ii →
        sendIterResult c (retries (tried + 1 + j))
          (iterTrace c retries (tried + 1) ((establishMain c (retries tried).conn s).state) j) =
        .error (.client (.commErr (K (tried + 1 + j)) (I (tried + 1 + j)))) := by
      intro j hj
      rw [iterTrace_shift, show tried + 1 + j = tried + (j + 1) by omega]
      exact h (j + 1) (by omega)
    have hrej' : sendIterResult c (retries (tried + 1 + ii))
        (iterTrace c retries (tried + 1) ((establishMain c (retries tried).conn s).state) ii) =
        .error (.client (.connectErr rk)) := by
      rw [iterTrace_shift, show tried + 1 + ii = tried + (ii + 1) by omega]
      exact hrej
    have hrec := ih r' (tried + 1) ((establishMain c (retries tried).conn s).state)
      (some (.commErr (K tried) (I tried))) hnext hrej' (by omega)
    rw [sendRetryLoop_step_commErr c retries r' tried s lastE _ _ h0, hrec,
      iterTrace_shift,
      show tried + 1 + ii + 1 = tried + (ii + 1) + 1 by omega]

/-! ## C4 -/

/-- C4: when every connection attempt fails transiently,
`_establish_connection` makes exactly the configured number of attempts,
destroys the handle, and raises the transient class recorded on the last
attempt annotated with the retry count; when the first send and every
retry iteration of `send_status` fail transiently, the client is
destroyed and the transient error recorded on the last iteration is
raised. -/
theorem retry_exhaustion_last_transient :
    (∀ (N : Nat) (env : Nat → ConnectOutcome) (K : Nat → CommErrKind) (s : ClientState),
      1 ≤ N →
      (∀ j, j < N → attemptTransient (env j) (K j)) →
      s.isConnected = false →
      establishMain N env s =
        ⟨⟨none, false, s.currentCommand⟩, N,
          .error (.client (.commErr (K (N - 1)) (.triedTimes N)))⟩) ∧
    (∀ (R c : Nat) (retries : Nat → RetryEnv) (K : Nat → CommErrKind) (I : Nat → ErrInfo)
      (first : SendOutcome) (data : List Nat) (t : Int) (s : ClientState) (sk : Nat)
      (fk : CommErrKind) (fi : ErrInfo),
      1 ≤ R → s.clientSocket = some sk → ¬ t < 0 →
      runSendRequest first = .error (.client (.commErr fk fi)) →
      (∀ j, j < R → sendIterResult c (retries j)
          (iterTrace c retries 0 { s with isConnected := false } j) =
        .error (.client (.commErr (K j) (I j)))) →
      send_status R c first retries data t s =
        (destroyMain (iterTrace c retries 0 { s with isConnected := false } R),
          .error (.client (.commErr (K (R - 1)) (I (R - 1))))) ∧
      (destroyMain
        (iterTrace c retries 0 { s with isConnected := false } R)).clientSocket = none) := by
  constructor
  · intro N env K s hN h hc
    obtain ⟨m, rfl⟩ : ∃ m, N = m + 1 := ⟨N - 1, by omega⟩
    have key := establishLoopMain_transient (m + 1) env K m 0 s none
      (fun j hj => by simpa using h j (by omega)) hc
    simp only [Nat.zero_add] at key
    rw [show m + 1 - 1 = m by omega]
    exact key
  · intro R c retries K I first data t s sk fk fi hR hs ht hf h
    obtain ⟨m, rfl⟩ : ∃ m, R = m + 1 := ⟨R - 1, by omega⟩
    have key := sendRetryLoop_transient c retries K I m 0
      { s with isConnected := false } none
      (fun j hj => by simpa using h j (by omega))
    simp only [Nat.zero_add] at key
    have key2 := key
    rw [hs] at key2
    refine ⟨?_, by simp⟩
    simp only [send_status, hs, ht, hf]
    rw [key2]
    rw [show m + 1 - 1 = m by omega]
    simp

/-- Witness for C4: two timing-out connection attempts exhaust a retry
count of two. -/
theorem retry_exhaustion_last_transient_witness :
    establishMain 2 (fun _ => .createTimeout) ⟨none, false, none⟩ =
      ⟨⟨none, false, none⟩, 2,
        .error (.client (.commErr .serverTookTooLong (.triedTimes 2)))⟩ :=
  retry_exhaustion_last_transient.1 2 (fun _ => .createTimeout)
    (fun _ => .serverTookTooLong) ⟨none, false, none⟩ (by omega)
    (fun _ _ => ⟨.timeoutErr, rfl, rfl⟩) rfl

/-! ## C2 -/

/-- C2 (amended): a handshake rejection short-circuits both retry loops
immediately — `_establish_connection` stops after the rejecting attempt
no matter how much budget remains, and the `send_status` retry loop
destroys the whole client and propagates the rejection without entering
another iteration.  In the connect path, however, the connection handle
is NOT destroyed before the rejection propagates: the state keeps the
socket created by the rejected attempt. -/
theorem rejection_short_circuits :
    (∀ (N : Nat) (env : Nat → ConnectOutcome) (K : Nat → CommErrKind) (s : ClientState)
      (k sock : Nat) (hs : HandshakeEnv) (rk : ConnectErrKind),
      runHandshake hs = .error (.client (.connectErr rk)) →
      (∀ j, j < k → attemptTransient (env j) (K j)) →
      env k = .created sock hs →
      k < N →
      establishMain N env s =
        ⟨⟨some sock, s.isConnected, s.currentCommand⟩, k + 1,
          .error (.client (.connectErr rk))⟩) ∧
    (∀ (R c : Nat) (retries : Nat → RetryEnv) (K : Nat → CommErrKind) (I : Nat → ErrInfo)
      (first : SendOutcome) (data : List Nat) (t : Int) (s : ClientState) (sk : Nat)
      (fk : CommErrKind) (fi : ErrInfo) (i : Nat) (rk : ConnectErrKind),
      s.clientSocket = some sk → ¬ t < 0 →
      runSendRequest first = .error (.client (.commErr fk fi)) →
      (∀ j, j < i → sendIterResult c (retries j)
          (iterTrace c retries 0 { s with isConnected := false } j) =
        .error (.client (.commErr (K j) (I j)))) →
      sendIterResult c (retries i)
          (iterTrace c retries 0 { s with isConnected := false } i) =
        .error (.client (.connectErr rk)) →
      i < R →
      sendRetryLoop c retries R 0 { s with isConnected := false } none =
        (destroyMain (iterTrace c retries 0 { s with isConnected := false } (i + 1)),
          i + 1, .error (.client (.connectErr rk))) ∧
      send_status R c first retries data t s =
        (destroyMain (iterTrace c retries 0 { s with isConnected := false } (i + 1)),
          .error (.client (.connectErr rk))) ∧
      (destroyMain
        (iterTrace c retries 0
          { s with isConnected := false } (i + 1))).clientSocket = none) := by
  constructor
  · intro N env K s k sock hs rk hhs h henv hk
    have key := establishLoopMain_reject N env K sock hs rk hhs k N 0 s none
      (fun j hj => by simpa using h j hj) (by simpa using henv) hk
    simpa using key
  · intro R c retries K I first data t s sk fk fi i rk hs ht hf h hrej hk
    have key := sendRetryLoop_rejection c retries K I rk i R 0
      { s with isConnected := false } none
      (fun j hj => by simpa using h j hj) (by simpa using hrej) hk
    simp only [Nat.zero_add] at key
    have key2 := key
    rw [hs] at key2
    refine ⟨key, ?_, by simp⟩
    simp only [send_status, hs, ht, hf]
    rw [key2]
    simp

/-- Witness for C2: a first-attempt rejection with two attempts of
remaining budget in the connect path. -/
theorem rejection_short_circuits_witness :
    establishMain 3 (fun _ => .created 7 (.response ⟨some ⟨some 1⟩, none⟩))
        ⟨none, false, none⟩ =
      ⟨⟨some 7, false, none⟩, 1, .error (.client (.connectErr .alreadyConnected))⟩ :=
  rejection_short_circuits.1 3 (fun _ => .created 7 (.response ⟨some ⟨some 1⟩, none⟩))
    (fun _ => .serverTookTooLong) ⟨none, false, none⟩ 0 7
    (.response ⟨some ⟨some 1⟩, none⟩) .alreadyConnected rfl
    (fun j hj => absurd hj (by omega)) rfl (by omega)

/-- C2 counterexample: in the connect path a rejection propagates with
the newly created socket still attached — the handle is not destroyed
before the rejection propagates, contradicting the claim. -/
theorem rejection_leaves_handle_counterexample :
    (establishMain 2 (fun _ => .created 7 (.response ⟨some ⟨some 1⟩, none⟩))
        ⟨none, false, none⟩).result = .error (.client (.connectErr .alreadyConnected)) ∧
    (establishMain 2 (fun _ => .created 7 (.response ⟨some ⟨some 1⟩, none⟩))
        ⟨none, false, none⟩).state.clientSocket = some 7 ∧
    (some 7 : Option Nat) ≠ none :=
  ⟨rfl, rfl, by simp⟩

/-! ## Pending-command preservation lemmas (C6) -/

theorem establishLoopMain_currentCommand (N : Nat) (env : Nat → ConnectOutcome) :
    ∀ (r tried : Nat) (s : ClientState) (lastE : Option CommErrKind),
      ((establishLoopMain N env r tried s lastE).state).currentCommand =
        s.currentCommand := by
  intro r
  induction r with
  | zero =>
    intro tried s lastE
    rw [establishLoopMain_zero]
    by_cases h : s.isConnected = true
    · simp [h]
    · cases lastE <;> simp [h]
  | succ rr ih =>
    intro tried s lastE
    rw [establishLoopMain_succ]
    cases heo : attemptResult (env tried) with
    | ok u =>
      rw [ih]
      simp
    | error e =>
      cases hcat : establishCatch e with
      | some k =>
        simp only [hcat]
        rw [ih]
        simp
      | none =>
        simp only [hcat]
        simp

theorem establishMain_currentCommand (N : Nat) (env : Nat → ConnectOutcome)
    (s : ClientState) :
    ((establishMain N env s).state).currentCommand = s.currentCommand :=
  establishLoopMain_currentCommand N env N 0 s none

/-- Step lemma: an iteration failing with anything other than
`CommunicationExceptions` or `ConnectExceptions` propagates it raw. -/
theorem sendRetryLoop_step_other (c : Nat) (retries : Nat → RetryEnv) (r tried : Nat)
    (s : ClientState) (lastE : Option ClientError) (e : PyError)
    (h : sendIterResult c (retries tried) s = .error e)
    (h1 : ∀ k i, e ≠ .client (.commErr k i))
    (h2 : ∀ rk, e ≠ .client (.connectErr rk)) :
    sendRetryLoop c retries (r + 1) tried s lastE =
      ((establishMain c (retries tried).conn s).state, tried + 1, .error e) := by
  cases heo : (establishMain c (retries tried).conn s).result with
  | error e' =>
    simp only [sendIterResult, heo] at h
    rw [Except.error.injEq] at h
    subst h
    simp only [sendRetryLoop, heo]
  | ok u =>
    simp only [sendIterResult, heo] at h
    simp only [sendRetryLoop, heo, h]

theorem sendRetryLoop_currentCommand (c : Nat) (retries : Nat → RetryEnv) :
    ∀ (r tried : Nat) (s : ClientState) (lastE : Option ClientError),
      ((sendRetryLoop c retries r tried s lastE).1).currentCommand =
        s.currentCommand := by
  intro r
  induction r with
  | zero =>
    intro tried s lastE
    rw [sendRetryLoop_zero]
    cases lastE <;> simp
  | succ rr ih =>
    intro tried s lastE
    cases hir : sendIterResult c (retries tried) s with
    | ok m =>
      rw [sendRetryLoop_step_ok c retries rr tried s lastE m hir]
      exact establishMain_currentCommand c (retries tried).conn s
    | error e =>
      by_cases hcomm : ∃ k i, e = .client (.commErr k i)
      · obtain ⟨k, i, rfl⟩ := hcomm
        rw [sendRetryLoop_step_commErr c retries rr tried s lastE k i hir, ih]
        exact establishMain_currentCommand c (retries tried).conn s
      · by_cases hconn : ∃ rk, e = .client (.connectErr rk)
        · obtain ⟨rk, rfl⟩ := hconn
          rw [sendRetryLoop_step_connectErr c retries rr tried s lastE rk hir]
          show (destroyMain (establishMain c (retries tried).conn s).state).currentCommand = _
          rw [destroyMain_currentCommand]
          exact establishMain_currentCommand c (retries tried).conn s
        · rw [sendRetryLoop_step_other c retries rr tried s lastE e hir
            (fun k i hh => hcomm ⟨k, i, hh⟩) (fun rk hh => hconn ⟨rk, hh⟩)]
          exact establishMain_currentCommand c (retries tried).conn s

/-- A `runSendRequest` success comes from an `.ok` environment outcome. -/
theorem runSendRequest_ok (o : SendOutcome) (msg : InternalServerMsg)
    (h : runSendRequest o = .ok msg) : o = .ok msg := by
  cases o <;> simp_all [runSendRequest]

/-- If the retry loop ends with a response, some iteration's
`_send_request` returned it. -/
theorem sendRetryLoop_ok_source (c : Nat) (retries : Nat → RetryEnv) :
    ∀ (r tried : Nat) (s : ClientState) (lastE : Option ClientError)
      (s2 : ClientState) (n : Nat) (msg : InternalServerMsg),
      sendRetryLoop c retries r tried s lastE = (s2, n, .ok msg) →
      ∃ i, (retries i).send = .ok msg := by
  intro r
  induction r with
  | zero =>
    intro tried s lastE s2 n msg h
    rw [sendRetryLoop_zero] at h
    cases lastE <;> simp [Prod.ext_iff] at h
  | succ rr ih =>
    intro tried s lastE s2 n msg h
    cases hir : sendIterResult c (retries tried) s with
    | ok m =>
      rw [sendRetryLoop_step_ok c retries rr tried s lastE m hir] at h
      have hm : m = msg := by
        have := congrArg (fun p => p.2.2) h
        simpa using this
      subst hm
      refine ⟨tried, ?_⟩
      cases heo : (establishMain c (retries tried).conn s).result with
      | error e => simp [sendIterResult, heo] at hir
      | ok u =>
        simp only [sendIterResult, heo] at hir
        exact runSendRequest_ok _ _ hir
    | error e =>
      by_cases hcomm : ∃ k i, e = .client (.commErr k i)
      · obtain ⟨k, i, rfl⟩ := hcomm
        rw [sendRetryLoop_step_commErr c retries rr tried s lastE k i hir] at h
        exact ih (tried + 1) _ _ s2 n msg h
      · by_cases hconn : ∃ rk, e = .client (.connectErr rk)
        · obtain ⟨rk, rfl⟩ := hconn
          rw [sendRetryLoop_step_connectErr c retries rr tried s lastE rk hir] at h
          simp [Prod.ext_iff] at h
        · rw [sendRetryLoop_step_other c retries rr tried s lastE e hir
            (fun k i hh => hcomm ⟨k, i, hh⟩) (fun rk hh => hconn ⟨rk, hh⟩)] at h
          simp [Prod.ext_iff] at h

/-! ## C6 -/

/-- C6: the pending command is only ever assigned from a response that
contains the command field (the sole assignment site checks
`HasField("deviceCommand")` first); the retry loop, connection
establishment, `destroy` and `get_command` never change it; a
`send_status` run changes it only when it returns success, and then to
the command payload of a response delivered by the environment; and a
successful send whose response lacks the command field raises
`CommunicationError` directly — for every retry budget, so the failure
is not retried — leaving the pending command unchanged. -/
theorem pending_command_integrity (R c : Nat) (first : SendOutcome)
    (retries : Nat → RetryEnv) (data : List Nat) (t : Int) (s : ClientState) :
    (∀ msg st, msg.deviceCommand = none →
      handleCommandResponse msg st =
        (st, .error (.client (.commErr .communicationError .invalidMsg)))) ∧
    (∀ msg st cmd, msg.deviceCommand = some cmd →
      handleCommandResponse msg st =
        ({ st with currentCommand := some cmd.commandData }, .ok ())) ∧
    (∀ r tried lastE,
      ((sendRetryLoop c retries r tried s lastE).1).currentCommand =
        s.currentCommand) ∧
    (∀ N env, ((establishMain N env s).state).currentCommand = s.currentCommand) ∧
    ((destroyMain s).currentCommand = s.currentCommand) ∧
    ((get_command s).1 = s) ∧
    (∀ s' res, send_status R c first retries data t s = (s', res) →
      s'.currentCommand ≠ s.currentCommand →
      res = .ok () ∧ ∃ msg cmd, msg.deviceCommand = some cmd ∧
        s'.currentCommand = some cmd.commandData ∧
        (first = .ok msg ∨ ∃ i, (retries i).send = .ok msg)) ∧
    (∀ msg, first = .ok msg → msg.deviceCommand = none → s.clientSocket ≠ none →
      ¬ t < 0 →
      send_status R c first retries data t s =
        (s, .error (.client (.commErr .communicationError .invalidMsg)))) := by
  refine ⟨?_, ?_, ?_, ?_, ?_, ?_, ?_, ?_⟩
  · intro msg st h
    simp [handleCommandResponse, h]
  · intro msg st cmd h
    simp [handleCommandResponse, h]
  · intro r tried lastE
    exact sendRetryLoop_currentCommand c retries r tried s lastE
  · intro N env
    exact establishMain_currentCommand N env s
  · exact destroyMain_currentCommand s
  · by_cases h : s.clientSocket = none
    · simp [get_command, h]
    · cases hc : s.currentCommand <;> simp [get_command, h, hc]
  · intro s' res heq hne
    by_cases h0 : s.clientSocket = none
    · simp only [send_status, if_pos h0] at heq
      rw [Prod.mk.injEq] at heq
      exact absurd (by rw [← heq.1]) hne
    · by_cases h1 : t < 0
      · simp only [send_status, if_neg h0, if_pos h1] at heq
        rw [Prod.mk.injEq] at heq
        exact absurd (by rw [← heq.1]) hne
      · simp only [send_status, if_neg h0, if_neg h1] at heq
        cases hrs : runSendRequest first with
        | ok msg =>
          rw [hrs] at heq
          cases hm : msg.deviceCommand with
          | none =>
            simp only [handleCommandResponse, hm] at heq
            rw [Prod.mk.injEq] at heq
            exact absurd (by rw [← heq.1]) hne
          | some cmd =>
            simp only [handleCommandResponse, hm] at heq
            rw [Prod.mk.injEq] at heq
            refine ⟨heq.2.symm, msg, cmd, hm, ?_, .inl (runSendRequest_ok first msg hrs)⟩
            rw [← heq.1]
        | error e =>
          rw [hrs] at heq
          rcases hL : sendRetryLoop c retries R 0 { s with isConnected := false } none
            with ⟨s2, nn, rres⟩
          rw [hL] at heq
          have hcc : s2.currentCommand = s.currentCommand := by
            have := sendRetryLoop_currentCommand c retries R 0
              { s with isConnected := false } none
            rw [hL] at this
            exact this
          cases rres with
          | error e2 =>
            simp only [] at heq
            rw [Prod.mk.injEq] at heq
            exact absurd (by rw [← heq.1, hcc]) hne
          | ok msg =>
            simp only [] at heq
            cases hm : msg.deviceCommand with
            | none =>
              simp only [handleCommandResponse, hm] at heq
              rw [Prod.mk.injEq] at heq
              exact absurd (by rw [← heq.1, hcc]) hne
            | some cmd =>
              simp only [handleCommandResponse, hm] at heq
              rw [Prod.mk.injEq] at heq
              refine ⟨heq.2.symm, msg, cmd, hm, ?_,
                .inr (sendRetryLoop_ok_source c retries R 0
                  { s with isConnected := false } none s2 nn msg hL)⟩
              rw [← heq.1]
  · intro msg h hm hsock ht
    subst h
    simp [send_status, hsock, ht, runSendRequest, handleCommandResponse, hm]

/-- Witness for C6: a response without the command field fails malformed
and leaves the stored command untouched. -/
theorem pending_command_integrity_witness :
    send_status 1 1 (.ok ⟨none, none⟩)
        (fun _ => ⟨fun _ => .createTimeout, .timeout⟩) [] 0 ⟨some 4, true, some [7]⟩ =
      (⟨some 4, true, some [7]⟩,
        .error (.client (.commErr .communicationError .invalidMsg))) :=
  (pending_command_integrity 1 1 (.ok ⟨none, none⟩)
    (fun _ => ⟨fun _ => .createTimeout, .timeout⟩) [] 0
    ⟨some 4, true, some [7]⟩).2.2.2.2.2.2.2 ⟨none, none⟩ rfl rfl (by simp) (by decide)

end InternalClientSpec
